import Mathlib

/-!
Shallow embedding of the auto-route53 updater (main.go): the DDNS reconciliation
tick, the public-IP fetch, the Route53 record upsert, the Nginx Proxy Manager
client, and the startup wiring of main. The certificate orchestrator of the
specification is absent from the source tree and is modelled from the
specification text where a claim needs it.
-/

/-- Configuration of a single managed DNS record, embedding RecordConfig of main.go
(zone_id, record_name, tls, port, redirect_to_https). -/
structure RecordConfig where
  zoneID : String
  recordName : String
  tls : Bool
  port : Int
  redirectToHttps : Bool
deriving DecidableEq, Repr

/-- Application configuration, embedding AppConfig of main.go. The sleep interval is
kept in seconds. -/
structure AppConfig where
  sleepTime : Nat
  recordsToUpdate : List RecordConfig
  npmBaseURL : String
  npmIdentity : String
  npmSecret : String
  forwardHost : String

/-- Content of the IP state file, none when the file does not exist. getStoredString
of main.go reads a missing file as the empty string, so readers see o.getD "". -/
def readStoredIP (o : Option String) : String := o.getD ""

/-- Environment of a single iteration of runDDNSLoop: the result of getPublicIP
(none models a fetch error), whether updateRoute53Record succeeds for each record,
and whether storeString succeeds. -/
structure TickEnv where
  fetchResult : Option String
  upsertOk : RecordConfig → Bool
  storeOk : Bool

/-- One attempted Route53 upsert call issued during a tick: hosted zone id, record
name and the value written. -/
structure UpsertCall where
  zoneID : String
  recordName : String
  value : String
deriving DecidableEq, Repr

/-- One iteration of runDDNSLoop of main.go: fetch the public IP (on error, log and
do nothing); read the stored IP (absent file reads as empty string); when the
fetched IP differs, upsert every configured record and store the fetched IP only
when every upsert succeeded. Returns the list of upsert calls attempted and the
state-file content after the tick. -/
def ddnsTick (records : List RecordConfig) (stored : Option String) (env : TickEnv) :
    List UpsertCall × Option String :=
  match env.fetchResult with
  | none => ([], stored)
  | some publicIP =>
    let storedIP := readStoredIP stored
    if publicIP ≠ storedIP then
      let calls := records.map fun r => UpsertCall.mk r.zoneID r.recordName publicIP
      let allUpdated := records.all fun r => env.upsertOk r
      if allUpdated && env.storeOk then (calls, some publicIP) else (calls, stored)
    else ([], stored)

/-- HTTP response as seen by getPublicIP: status code and body. -/
structure HttpResponse where
  status : Nat
  body : String
deriving DecidableEq, Repr

/-- Embedding of strings.TrimSpace: drop whitespace characters (spaces, tabs and
line terminators) from both ends of the string. -/
def trimSpace (s : String) : String :=
  String.mk
    (((s.data.dropWhile Char.isWhitespace).reverse.dropWhile Char.isWhitespace).reverse)

/-- Embedding of getPublicIP of main.go: none models a transport failure of
http.Get; any status other than 200 (http.StatusOK) is rejected; on success the
body is returned with surrounding whitespace trimmed (strings.TrimSpace). -/
def getPublicIP (resp : Option HttpResponse) : Except String String :=
  match resp with
  | none => Except.error "failed to get public IP"
  | some r =>
    if r.status ≠ 200 then Except.error "bad status from IP service"
    else Except.ok (trimSpace r.body)

/-- Success-class HTTP status (2xx), used to state the specification claim about
getPublicIP. -/
def isSuccessClass (s : Nat) : Bool := 200 ≤ s && s < 300

/-- Route53 change actions of the AWS SDK enum; main.go only ever constructs
upsert. -/
inductive ChangeAction
  | upsert
  | create
  | delete
deriving DecidableEq, Repr

/-- Resource record set carried by a Route53 change: name, type, TTL, values. -/
structure ResourceRecordSet where
  name : String
  rrtype : String
  ttl : Int
  values : List String
deriving DecidableEq, Repr

/-- A single change of a Route53 change batch. -/
structure Change where
  action : ChangeAction
  rrset : ResourceRecordSet
deriving DecidableEq, Repr

/-- Change batch constructed by updateRoute53Record of main.go: a single UPSERT of
an A record with TTL 300 carrying exactly one value. -/
def updateRoute53Input (recordName value : String) : List Change :=
  [ { action := ChangeAction.upsert,
      rrset := { name := recordName, rrtype := "A", ttl := 300, values := [value] } } ]

/-- Remote state of a hosted zone: the TTL and value list of each
(record name, record type) pair, none when the record set does not exist. -/
def ZoneState := String × String → Option (Int × List String)

/-- Modelled from the spec: UPSERT semantics of the remote DNS provider
(DNSPublisher, spec section 4.3), an external collaborator of this repository —
create-or-fully-replace the named record set with the change's value list and TTL.
Actions other than upsert are never issued by this program and are left inert. -/
def applyChange (z : ZoneState) (c : Change) : ZoneState :=
  fun k =>
    match c.action with
    | ChangeAction.upsert =>
      if k = (c.rrset.name, c.rrset.rrtype) then some (c.rrset.ttl, c.rrset.values)
      else z k
    | _ => z k

/-- Remote effect of submitting a change batch. -/
def applyBatch (z : ZoneState) (cs : List Change) : ZoneState := cs.foldl applyChange z

/-- Remote effect of one call to updateRoute53Record of main.go. -/
def upsertRecord (z : ZoneState) (recordName value : String) : ZoneState :=
  applyBatch z (updateRoute53Input recordName value)

/-- Result of the NewNpmClient authentication loop: the token when authentication
succeeded, the number of attempts made, and the number of 15-second sleeps
performed (one after each failed attempt). -/
structure NpmAuthResult where
  token : Option String
  attempts : Nat
  sleeps : Nat
deriving DecidableEq, Repr

/-- Retry loop of NewNpmClient of main.go, by remaining tries: attempt i yielding a
token returns it at once; a failed attempt logs and sleeps 15 seconds, then the
next attempt runs. The index i counts the attempts already failed. -/
def npmAuthFrom (attempt : Nat → Option String) : Nat → Nat → NpmAuthResult
  | 0, i => { token := none, attempts := i, sleeps := i }
  | fuel + 1, i =>
    match attempt i with
    | some t => { token := some t, attempts := i + 1, sleeps := i }
    | none => npmAuthFrom attempt fuel (i + 1)

/-- Embedding of NewNpmClient of main.go: up to 5 authentication attempts against
the proxy controller, then give up with an error (token none). -/
def newNpmClient (attempt : Nat → Option String) : NpmAuthResult :=
  npmAuthFrom attempt 5 0

/-- Fields of the proxy-host creation request body built by createProxyHost of
main.go. -/
structure ProxyHostPayload where
  domainNames : List String
  forwardScheme : String
  forwardHost : String
  forwardPort : Int
  allowWebsocketUpgrade : Bool
  blockExploits : Bool
  hstsEnabled : Bool
  hstsSubdomains : Bool
  sslForced : Bool
  certificateId : Option String
deriving DecidableEq, Repr

/-- Request body constructed by createProxyHost of main.go: hsts_enabled,
hsts_subdomains and ssl_forced start as the record's redirect_to_https flag; when
the record requests TLS they are overridden to true and certificate_id is set to
new. -/
def createProxyHostPayload (record : RecordConfig) (forwardHost : String) :
    ProxyHostPayload :=
  let base : ProxyHostPayload :=
    { domainNames := [record.recordName]
      forwardScheme := "http"
      forwardHost := forwardHost
      forwardPort := record.port
      allowWebsocketUpgrade := true
      blockExploits := true
      hstsEnabled := record.redirectToHttps
      hstsSubdomains := record.redirectToHttps
      sslForced := record.redirectToHttps
      certificateId := none }
  if record.tls then
    { base with
      certificateId := some "new"
      hstsEnabled := true
      hstsSubdomains := true
      sslForced := true }
  else base

/-- Startup environment of main of main.go: the result of loadConfig (none models a
configuration error), whether the AWS SDK configuration loads, and the outcome of
each NPM authentication attempt. -/
structure StartupEnv where
  loadConfigResult : Option AppConfig
  awsConfigOk : Bool
  npmAttempt : Nat → Option String

/-- What the process does after startup: log.Fatalf exits with a non-zero status;
otherwise main blocks forever on wg.Wait with the DDNS loop goroutine running and
one proxy-setup goroutine per listed record. -/
inductive MainOutcome
  | fatalExit
  | running (ddnsLoopStarted : Bool) (proxyTasks : List RecordConfig)
deriving DecidableEq, Repr

/-- Embedding of main of main.go: loadConfig failure and AWS config failure call
log.Fatalf; NewNpmClient is attempted only when NPM_URL and NPM_IDENTITY are both
set, and its failure is only logged (npmClient stays nil). The DDNS loop goroutine
always starts; a proxy-setup goroutine starts per record exactly when the record
has a positive port, npmClient is non-nil, and FORWARD_HOST_IP is non-empty. -/
def mainRun (env : StartupEnv) : MainOutcome :=
  match env.loadConfigResult with
  | none => MainOutcome.fatalExit
  | some cfg =>
    if !env.awsConfigOk then MainOutcome.fatalExit
    else
      let npmClientPresent :=
        decide (cfg.npmBaseURL ≠ "") && decide (cfg.npmIdentity ≠ "") &&
          (newNpmClient env.npmAttempt).token.isSome
      MainOutcome.running true
        (cfg.recordsToUpdate.filter fun r =>
          decide (r.port > 0) && npmClientPresent && decide (cfg.forwardHost ≠ ""))

/-- Lifecycle stages of one certificate workflow (spec section 3). -/
inductive CertStage
  | idle
  | discovered
  | requested
  | challengeDiscovery
  | challengePublished
  | validating
  | persisted
  | failed
deriving DecidableEq, Repr

/-- An entry of the certificate authority's issued-certificate listing. -/
structure IssuedCert where
  domainName : String
  identifier : String
deriving DecidableEq, Repr

/-- DNS challenge record demanded by the certificate authority. -/
structure ChallengeRecord where
  name : String
  rrtype : String
  value : String
deriving DecidableEq, Repr

/-- External collaborators of one certificate orchestrator run: the persisted
identifier state file, the CA issued listing, the request-certificate outcome, the
describe-certificate poll results, and the outcomes of the DNS publish and of the
validation wait. -/
structure CertEnv where
  persistedIdentifier : Option String
  listIssued : List IssuedCert
  requestCertificate : Option String
  describeChallenge : Nat → Option ChallengeRecord
  publishOk : Bool
  waitValidatedOk : Bool

/-- Outcome of one certificate orchestrator run: final stage, number of network
calls made (CA and DNS requests), and the identifier written to the state file,
if any. -/
structure CertOutcome where
  stage : CertStage
  networkCalls : Nat
  persistedWrite : Option String
deriving DecidableEq, Repr

/-- Modelled from the spec: the challenge poll loop of section 4.4 —
describe-certificate every 30 seconds within a 15-minute budget (at most 30
polls). Returns the challenge record when one appears and the number of describe
calls made. -/
def pollChallenge (describe : Nat → Option ChallengeRecord) :
    Nat → Nat → Option ChallengeRecord × Nat
  | 0, _ => (none, 0)
  | fuel + 1, i =>
    match describe i with
    | some c => (some c, 1)
    | none =>
      let r := pollChallenge describe fuel (i + 1)
      (r.1, r.2 + 1)

/-- Modelled from the spec: the CertificateOrchestrator state machine of section
4.4, whose implementation is not part of the source tree under src (that revision
integrates a proxy manager instead). A persisted identifier short-circuits to
persisted with zero network calls; otherwise the CA listing, the certificate
request, the challenge polling, the DNS publish and the validation wait run in
order, any failure being terminal. -/
def certOrchestratorRun (domain : String) (env : CertEnv) : CertOutcome :=
  match env.persistedIdentifier with
  | some _ =>
    { stage := CertStage.persisted, networkCalls := 0, persistedWrite := none }
  | none =>
    match env.listIssued.find? (fun c => c.domainName == domain) with
    | some c =>
      { stage := CertStage.persisted, networkCalls := 1,
        persistedWrite := some c.identifier }
    | none =>
      match env.requestCertificate with
      | none =>
        { stage := CertStage.failed, networkCalls := 2, persistedWrite := none }
      | some ident =>
        match pollChallenge env.describeChallenge 30 0 with
        | (none, polls) =>
          { stage := CertStage.failed, networkCalls := 2 + polls,
            persistedWrite := none }
        | (some _, polls) =>
          if !env.publishOk then
            { stage := CertStage.failed, networkCalls := 2 + polls + 1,
              persistedWrite := none }
          else if !env.waitValidatedOk then
            { stage := CertStage.failed, networkCalls := 2 + polls + 2,
              persistedWrite := none }
          else
            { stage := CertStage.persisted, networkCalls := 2 + polls + 2,
              persistedWrite := some ident }

/-- Certificate environment whose state file already holds an identifier and whose
collaborators would all fail if contacted. -/
def restartEnv : CertEnv :=
  { persistedIdentifier := some "cert-id-1"
    listIssued := []
    requestCertificate := none
    describeChallenge := fun _ => none
    publishOk := false
    waitValidatedOk := false }

/-- Startup environment in which configuration and AWS credentials load, NPM is
configured, but every NPM authentication attempt fails. -/
def npmAuthFailEnv : StartupEnv :=
  { loadConfigResult := some
      { sleepTime := 300
        recordsToUpdate := []
        npmBaseURL := "http://npm:81"
        npmIdentity := "admin"
        npmSecret := "bad-secret"
        forwardHost := "" }
    awsConfigOk := true
    npmAttempt := fun _ => none }

/-- Startup environment with a record that declares a forwarding port, NPM
configured and authenticating, but FORWARD_HOST_IP unset. -/
def noForwardHostEnv : StartupEnv :=
  { loadConfigResult := some
      { sleepTime := 300
        recordsToUpdate :=
          [ { zoneID := "Z1", recordName := "a.example.com", tls := false,
              port := 8080, redirectToHttps := false } ]
        npmBaseURL := "http://npm:81"
        npmIdentity := "admin"
        npmSecret := "sec"
        forwardHost := "" }
    awsConfigOk := true
    npmAttempt := fun _ => some "token" }

/-- Record that requests TLS, used to instantiate the proxy-host payload. -/
def tlsRecord : RecordConfig :=
  { zoneID := "Z1", recordName := "a.example.com", tls := true, port := 8080,
    redirectToHttps := false }

/-- Record that does not request TLS but sets redirect_to_https. -/
def plainRecord : RecordConfig :=
  { zoneID := "Z2", recordName := "b.example.com", tls := false, port := 8081,
    redirectToHttps := true }

/-- Helper: when the fetch succeeds and the fetched IP differs from the stored one,
the tick attempts an upsert for every configured record, whatever the outcomes. -/
theorem ddnsTick_calls_of_ne (records : List RecordConfig) (stored : Option String)
    (env : TickEnv) (ip : String) (hfetch : env.fetchResult = some ip)
    (hne : ip ≠ readStoredIP stored) :
    (ddnsTick records stored env).1 =
      records.map fun r => UpsertCall.mk r.zoneID r.recordName ip := by
  simp only [ddnsTick, hfetch]
  rw [if_pos hne]
  split <;> rfl

/-- Helper: when the fetch succeeds, the fetched IP differs from the stored one and
some record's upsert fails, the state file is unchanged by the tick. -/
theorem ddnsTick_stored_of_fail (records : List RecordConfig) (stored : Option String)
    (env : TickEnv) (ip : String) (r : RecordConfig)
    (hfetch : env.fetchResult = some ip) (hne : ip ≠ readStoredIP stored)
    (hr : r ∈ records) (hfail : env.upsertOk r = false) :
    (ddnsTick records stored env).2 = stored := by
  have hall : (records.all fun q => env.upsertOk q) = false :=
    List.all_eq_false.mpr ⟨r, hr, by simp [hfail]⟩
  simp only [ddnsTick, hfetch]
  rw [if_pos hne]
  simp [hall]

/-- C1: in a tick where the fetched public IP differs from the stored IP and at
least one of the configured records' upserts fails, the IP state file is left
unchanged, and a next tick fetching the same IP attempts the upsert for every
configured record, not only the failed one. -/
theorem C1_partial_failure_keeps_stored_and_retries_all
    (records : List RecordConfig) (stored : Option String) (env env2 : TickEnv)
    (ip : String) (r : RecordConfig)
    (hfetch : env.fetchResult = some ip) (hne : ip ≠ readStoredIP stored)
    (hr : r ∈ records) (hfail : env.upsertOk r = false)
    (hfetch2 : env2.fetchResult = some ip) :
    (ddnsTick records stored env).2 = stored ∧
      (ddnsTick records ((ddnsTick records stored env).2) env2).1 =
        records.map fun q => UpsertCall.mk q.zoneID q.recordName ip := by
  have h1 : (ddnsTick records stored env).2 = stored :=
    ddnsTick_stored_of_fail records stored env ip r hfetch hne hr hfail
  refine ⟨h1, ?_⟩
  rw [h1]
  exact ddnsTick_calls_of_ne records stored env2 ip hfetch2 hne

/-- C1 witness: two records, the second record's upsert fails while the IP changed
from 1.1.1.1 to 2.2.2.2; the stored IP stays 1.1.1.1 and the next tick attempts
both records again. -/
theorem C1_witness :
    (ddnsTick [tlsRecord, plainRecord] (some "1.1.1.1")
        { fetchResult := some "2.2.2.2", upsertOk := fun q => q.zoneID == "Z1",
          storeOk := true }).2 = some "1.1.1.1" ∧
      (ddnsTick [tlsRecord, plainRecord] ((ddnsTick [tlsRecord, plainRecord]
            (some "1.1.1.1")
            { fetchResult := some "2.2.2.2", upsertOk := fun q => q.zoneID == "Z1",
              storeOk := true }).2)
          { fetchResult := some "2.2.2.2", upsertOk := fun _ => true,
            storeOk := true }).1 =
        [UpsertCall.mk "Z1" "a.example.com" "2.2.2.2",
         UpsertCall.mk "Z2" "b.example.com" "2.2.2.2"] := by
  have h := C1_partial_failure_keeps_stored_and_retries_all
    [tlsRecord, plainRecord] (some "1.1.1.1")
    { fetchResult := some "2.2.2.2", upsertOk := fun q => q.zoneID == "Z1",
      storeOk := true }
    { fetchResult := some "2.2.2.2", upsertOk := fun _ => true, storeOk := true }
    "2.2.2.2" plainRecord rfl (by decide) (by decide) (by decide) rfl
  simpa [tlsRecord, plainRecord] using h

/-- C2: a certificate orchestrator run whose persisted state file already holds an
identifier performs zero network calls and immediately reaches the persisted
stage. -/
theorem C2_persisted_skips_network (domain : String) (env : CertEnv) (ident : String)
    (h : env.persistedIdentifier = some ident) :
    certOrchestratorRun domain env =
      { stage := CertStage.persisted, networkCalls := 0, persistedWrite := none } := by
  simp [certOrchestratorRun, h]

/-- C2 witness: a concrete environment with a stored identifier, for which every
collaborator would fail if contacted, still reaches persisted with zero calls. -/
theorem C2_witness :
    certOrchestratorRun "a.example.com" restartEnv =
      { stage := CertStage.persisted, networkCalls := 0, persistedWrite := none } :=
  C2_persisted_skips_network "a.example.com" restartEnv "cert-id-1" rfl

/-- C3: on the first tick the state file is absent and reads as the empty string,
so any successfully fetched genuine IP (a non-empty string) differs from it and an
upsert is attempted for every configured record. -/
theorem C3_first_tick_publishes_all (records : List RecordConfig) (env : TickEnv)
    (ip : String) (hfetch : env.fetchResult = some ip) (hip : ip ≠ "") :
    (ddnsTick records none env).1 =
      records.map fun r => UpsertCall.mk r.zoneID r.recordName ip :=
  ddnsTick_calls_of_ne records none env ip hfetch (by simpa [readStoredIP] using hip)

/-- C3 witness: with no stored IP, a fetched 1.2.3.4 is published to both
configured records. -/
theorem C3_witness :
    (ddnsTick [tlsRecord, plainRecord] none
        { fetchResult := some "1.2.3.4", upsertOk := fun _ => true,
          storeOk := true }).1 =
      [UpsertCall.mk "Z1" "a.example.com" "1.2.3.4",
       UpsertCall.mk "Z2" "b.example.com" "1.2.3.4"] := by
  have h := C3_first_tick_publishes_all [tlsRecord, plainRecord]
    { fetchResult := some "1.2.3.4", upsertOk := fun _ => true, storeOk := true }
    "1.2.3.4" rfl (by decide)
  simpa [tlsRecord, plainRecord] using h

/-- C4: a tick in which the fetched IP equals the stored IP makes zero upsert calls
and leaves the state file as it was. -/
theorem C4_unchanged_ip_no_upserts (records : List RecordConfig) (stored : String)
    (env : TickEnv) (hfetch : env.fetchResult = some stored) :
    ddnsTick records (some stored) env = ([], some stored) := by
  simp [ddnsTick, hfetch, readStoredIP]

/-- C4 witness: with stored IP 1.2.3.4 fetched again, no upserts happen and the
file is untouched, even though every upsert would fail if attempted. -/
theorem C4_witness :
    ddnsTick [tlsRecord] (some "1.2.3.4")
        { fetchResult := some "1.2.3.4", upsertOk := fun _ => false,
          storeOk := true } =
      ([], some "1.2.3.4") :=
  C4_unchanged_ip_no_upserts [tlsRecord] "1.2.3.4" _ rfl

/-- C5: the change batch built by updateRoute53Record is a single UPSERT of an A
record with TTL 300 and exactly one value, and applying it twice to any remote zone
state gives the same state as applying it once. -/
theorem C5_upsert_idempotent (z : ZoneState) (recordName value : String) :
    upsertRecord (upsertRecord z recordName value) recordName value =
        upsertRecord z recordName value ∧
      updateRoute53Input recordName value =
        [ { action := ChangeAction.upsert,
            rrset := { name := recordName, rrtype := "A", ttl := 300,
                       values := [value] } } ] := by
  refine ⟨funext fun k => ?_, rfl⟩
  simp only [upsertRecord, applyBatch, updateRoute53Input, List.foldl_cons,
    List.foldl_nil, applyChange]
  split <;> rfl

/-- Helper: the retry loop never makes more attempts than it has fuel for. -/
theorem npmAuthFrom_attempts_le (attempt : Nat → Option String) (fuel i : Nat) :
    (npmAuthFrom attempt fuel i).attempts ≤ i + fuel := by
  induction fuel generalizing i with
  | zero => simp [npmAuthFrom]
  | succ n ih =>
    cases hA : attempt i with
    | some t => simp only [npmAuthFrom, hA]; omega
    | none =>
      simp only [npmAuthFrom, hA]
      have h := ih (i + 1)
      omega

/-- Helper: when every attempt within the fuel fails, the loop exhausts the fuel,
sleeping after each failure, and returns no token. -/
theorem npmAuthFrom_all_fail (attempt : Nat → Option String) (fuel i : Nat)
    (h : ∀ k, k < fuel → attempt (i + k) = none) :
    npmAuthFrom attempt fuel i =
      { token := none, attempts := i + fuel, sleeps := i + fuel } := by
  induction fuel generalizing i with
  | zero => simp [npmAuthFrom]
  | succ n ih =>
    have h0 : attempt i = none := by simpa using h 0 (Nat.succ_pos n)
    have hrec := ih (i + 1) (fun k hk => by
      have h2 := h (k + 1) (Nat.succ_lt_succ hk)
      have h3 : i + (k + 1) = i + 1 + k := by omega
      rw [h3] at h2
      exact h2)
    have harith : i + 1 + n = i + (n + 1) := by omega
    simp only [npmAuthFrom, h0]
    rw [hrec, harith]

/-- Helper: the first successful attempt j inside the fuel window returns its token
after j + 1 attempts and j sleeps. -/
theorem npmAuthFrom_first_success (attempt : Nat → Option String) (fuel i j : Nat)
    (t : String) (hij : i ≤ j) (hlt : j < i + fuel)
    (hfail : ∀ k, i ≤ k → k < j → attempt k = none) (hsucc : attempt j = some t) :
    npmAuthFrom attempt fuel i =
      { token := some t, attempts := j + 1, sleeps := j } := by
  induction fuel generalizing i with
  | zero => omega
  | succ n ih =>
    by_cases hji : i = j
    · subst hji
      simp [npmAuthFrom, hsucc]
    · have h0 : attempt i = none := hfail i le_rfl (lt_of_le_of_ne hij hji)
      simp only [npmAuthFrom, h0]
      exact ih (i + 1) (by omega) (by omega) (fun k hk1 hk2 => hfail k (by omega) hk2)

/-- C6 counterexample: status 204 is success-class, yet getPublicIP rejects it,
because the source accepts only status 200. -/
theorem C6_counterexample :
    isSuccessClass 204 = true ∧
      getPublicIP (some { status := 204, body := "1.2.3.4" }) =
        Except.error "bad status from IP service" := by
  exact ⟨rfl, rfl⟩

/-- C6 amended: getPublicIP returns an error iff the transport fails or the status
is not 200; on success it returns the body with surrounding whitespace trimmed. -/
theorem C6_amended_error_iff_not_ok (resp : Option HttpResponse) :
    ((∃ e, getPublicIP resp = Except.error e) ↔
        (resp = none ∨ ∃ r, resp = some r ∧ r.status ≠ 200)) ∧
      ∀ r, resp = some r → r.status = 200 →
        getPublicIP resp = Except.ok (trimSpace r.body) := by
  constructor
  · cases resp with
    | none => simp [getPublicIP]
    | some r =>
      by_cases h : r.status = 200 <;> simp [getPublicIP, h]
  · rintro r rfl h
    simp [getPublicIP, h]

/-- C6 amended witness: a 200 response whose body has surrounding whitespace is
returned trimmed. -/
theorem C6_amended_witness :
    getPublicIP (some { status := 200, body := " 1.2.3.4\n" }) =
      Except.ok "1.2.3.4" := by
  have h := (C6_amended_error_iff_not_ok
      (some { status := 200, body := " 1.2.3.4\n" })).2
      { status := 200, body := " 1.2.3.4\n" } rfl rfl
  rw [h]
  rfl

/-- C7 counterexample: a startup environment in which configuration and AWS
credentials load, the proxy controller is configured, and authentication against
it fails on every attempt; main does not exit, it keeps running with the DDNS
loop and no proxy tasks — a startup credential failure that is not process-fatal. -/
theorem C7_counterexample :
    npmAuthFailEnv.loadConfigResult.isSome = true ∧
      npmAuthFailEnv.awsConfigOk = true ∧
      (newNpmClient npmAuthFailEnv.npmAttempt).token = none ∧
      mainRun npmAuthFailEnv = MainOutcome.running true [] := by
  exact ⟨rfl, rfl, rfl, rfl⟩

/-- C7 amended: main exits with a non-zero status exactly when loadConfig fails or
the AWS configuration fails to load; in particular a proxy-controller
authentication failure is only logged and the process keeps running forever. -/
theorem C7_amended_fatal_iff (env : StartupEnv) :
    mainRun env = MainOutcome.fatalExit ↔
      (env.loadConfigResult = none ∨ env.awsConfigOk = false) := by
  cases henv : env.loadConfigResult with
  | none => simp [mainRun, henv]
  | some cfg =>
    cases ha : env.awsConfigOk <;> simp [mainRun, henv, ha]

/-- C8: NewNpmClient makes at most 5 authentication attempts; if all 5 attempts
fail it returns an error after 5 attempts and 5 fifteen-second sleeps; the first
successful attempt j returns its token at once after j + 1 attempts, having slept
once after each of the j failed attempts. -/
theorem C8_auth_retry_bounds (attempt : Nat → Option String) :
    (newNpmClient attempt).attempts ≤ 5 ∧
      ((∀ i, i < 5 → attempt i = none) →
        newNpmClient attempt = { token := none, attempts := 5, sleeps := 5 }) ∧
      (∀ j t, j < 5 → (∀ i, i < j → attempt i = none) → attempt j = some t →
        newNpmClient attempt = { token := some t, attempts := j + 1, sleeps := j }) := by
  refine ⟨?_, ?_, ?_⟩
  · have h := npmAuthFrom_attempts_le attempt 5 0
    simpa [newNpmClient] using h
  · intro h
    have := npmAuthFrom_all_fail attempt 5 0 (fun k hk => by simpa using h k hk)
    simpa [newNpmClient] using this
  · intro j t hj hfail hsucc
    have := npmAuthFrom_first_success attempt 5 0 j t (Nat.zero_le j) (by omega)
      (fun k _ hk2 => hfail k hk2) hsucc
    simpa [newNpmClient] using this

/-- C8 witness: with the first two attempts failing and the third succeeding,
NewNpmClient returns the token after 3 attempts and 2 sleeps. -/
theorem C8_witness :
    newNpmClient (fun i => if i = 2 then some "tok" else none) =
      { token := some "tok", attempts := 3, sleeps := 2 } := by
  have h := (C8_auth_retry_bounds (fun i => if i = 2 then some "tok" else none)).2.2
    2 "tok" (by omega) (by decide) (by decide)
  simpa using h

/-- C9: when FORWARD_HOST_IP is empty, main starts the DDNS loop and zero
proxy-setup tasks, whatever the records, ports and proxy-controller state. -/
theorem C9_empty_forward_host_no_proxy_tasks (env : StartupEnv) (cfg : AppConfig)
    (hc : env.loadConfigResult = some cfg) (ha : env.awsConfigOk = true)
    (hf : cfg.forwardHost = "") :
    mainRun env = MainOutcome.running true [] := by
  simp [mainRun, hc, ha, hf, List.filter_eq_nil_iff]

/-- C9 witness: a record with port 8080, NPM configured and authenticating, but
FORWARD_HOST_IP unset: the DDNS loop starts and no proxy task does. -/
theorem C9_witness :
    mainRun noForwardHostEnv = MainOutcome.running true [] :=
  C9_empty_forward_host_no_proxy_tasks noForwardHostEnv _ rfl rfl rfl

/-- C10: when a record requests TLS, the proxy-host payload forces ssl_forced,
hsts_enabled and hsts_subdomains to true and requests a new certificate, whatever
redirect_to_https says; without TLS those three fields equal redirect_to_https and
no certificate is requested. -/
theorem C10_tls_overrides_ssl_fields (record : RecordConfig) (fh : String) :
    (record.tls = true →
        (createProxyHostPayload record fh).sslForced = true ∧
        (createProxyHostPayload record fh).hstsEnabled = true ∧
        (createProxyHostPayload record fh).hstsSubdomains = true ∧
        (createProxyHostPayload record fh).certificateId = some "new") ∧
      (record.tls = false →
        (createProxyHostPayload record fh).sslForced = record.redirectToHttps ∧
        (createProxyHostPayload record fh).hstsEnabled = record.redirectToHttps ∧
        (createProxyHostPayload record fh).hstsSubdomains = record.redirectToHttps ∧
        (createProxyHostPayload record fh).certificateId = none) := by
  constructor <;> intro h <;> simp [createProxyHostPayload, h]

/-- C10 witness: the TLS record (redirect_to_https false) gets forced TLS settings
and a new certificate; the non-TLS record (redirect_to_https true) keeps its flag
on the three fields and requests no certificate. -/
theorem C10_witness :
    ((createProxyHostPayload tlsRecord "10.0.0.5").sslForced = true ∧
        (createProxyHostPayload tlsRecord "10.0.0.5").hstsEnabled = true ∧
        (createProxyHostPayload tlsRecord "10.0.0.5").hstsSubdomains = true ∧
        (createProxyHostPayload tlsRecord "10.0.0.5").certificateId = some "new") ∧
      ((createProxyHostPayload plainRecord "10.0.0.5").sslForced =
          plainRecord.redirectToHttps ∧
        (createProxyHostPayload plainRecord "10.0.0.5").hstsEnabled =
          plainRecord.redirectToHttps ∧
        (createProxyHostPayload plainRecord "10.0.0.5").hstsSubdomains =
          plainRecord.redirectToHttps ∧
        (createProxyHostPayload plainRecord "10.0.0.5").certificateId = none) :=
  ⟨(C10_tls_overrides_ssl_fields tlsRecord "10.0.0.5").1 rfl,
   (C10_tls_overrides_ssl_fields plainRecord "10.0.0.5").2 rfl⟩
